import Mathlib

/-!
Verification of the study-plan-generator frontend.

A shallow embedding of the repository's seven TypeScript source files:
the API client (`services/api.ts` and its variants), the data model
(`models.ts`), the single-page view controllers (`App.tsx` in its
date-aware, non-date and knowledge-graph variants) and the multi-step
quiz wizard (`MulitStepForm.tsx`).

JavaScript runtime values coming from `res.json()` are modelled by a
`Json` inductive; property access, nullish coalescing (`??`) and
truthiness are modelled explicitly.  Asynchronous event handlers that
interleave state setters with an awaited fetch are modelled as
functions from the pre-state and the fetch outcome to the list of
setter calls they perform, in order.
-/

namespace StudyPlanner

/-- A JSON value as returned by `Response.json()`. -/
inductive Json where
  | null : Json
  | bool (b : Bool) : Json
  | num (n : Int) : Json
  | str (s : String) : Json
  | arr (elems : List Json) : Json
  | obj (fields : List (String × Json)) : Json

/-- JavaScript property access `v[key]`: returns `Except.error ()` when it
throws a `TypeError` (access on `null`), `Except.ok none` when the result is
`undefined` (missing field, or access on a non-object primitive), and
`Except.ok (some w)` when the field is present. -/
def jsField : Json → String → Except Unit (Option Json)
  | Json.null, _ => Except.error ()
  | Json.obj fields, key => Except.ok (List.lookup key fields)
  | _, _ => Except.ok none

/-- JavaScript nullish coalescing `v ?? fallback`: the fallback is used when
`v` is `undefined` (`none`) or `null`. -/
def jsCoalesce (v : Option Json) (fallback : Json) : Json :=
  match v with
  | none => fallback
  | some Json.null => fallback
  | some w => w

/-- Outcome of a `fetch` call: either a network failure (the promise
rejects) or a server response with a status code and a body, where
`none` stands for a body that is not parsable as JSON. -/
inductive FetchResult where
  | netFail : FetchResult
  | resp (status : Nat) (body : Option Json) : FetchResult

/-- The processing every API-client operation applies to its fetch result:
`res.json()`, with no status-code inspection.  Rejects exactly on network
failure or an unparsable body. -/
def responseJson : FetchResult → Except Unit Json
  | FetchResult.netFail => Except.error ()
  | FetchResult.resp _ none => Except.error ()
  | FetchResult.resp _ (some j) => Except.ok j

/-- An HTTP request as assembled by the API client: the endpoint path, the
JSON body for `Content-Type: application/json` posts (`none` for multipart
posts) and the multipart form fields. -/
structure Request where
  path : String
  jsonBody : Option Json
  formFields : List (String × String)

/-- `extractStudyMaterial(formData)` from `services/api.ts`: posts the
multipart form to `/extract-study-material` and returns `res.json()`. -/
def extractStudyMaterial (formData : List (String × String)) (fr : FetchResult) :
    Request × Except Unit Json :=
  (⟨"/extract-study-material", none, formData⟩, responseJson fr)

/-- `createKnowledgeGraph(text)` from `services/api.ts`: posts
`{ study_material: text }` to `/create-knowledge-graph` and returns
`res.json()`. -/
def createKnowledgeGraph (text : String) (fr : FetchResult) :
    Request × Except Unit Json :=
  (⟨"/create-knowledge-graph",
    some (Json.obj [("study_material", Json.str text)]), []⟩,
   responseJson fr)

/-- `createStudyPlan(text)` from the non-date variant of the API client:
posts `{ study_material: text }` to `/create-study-plan` and returns
`res.json()` (typed `StudyPlan` by the caller, with no validation). -/
def createStudyPlan (text : String) (fr : FetchResult) :
    Request × Except Unit Json :=
  (⟨"/create-study-plan",
    some (Json.obj [("study_material", Json.str text)]), []⟩,
   responseJson fr)

/-- Modelled from the spec: the date-aware variant of `createStudyPlan`
(`createStudyPlan(text, date)` as called from `App.tsx`) is absent from the
sources; per the spec, `POST {base}/create-study-plan` takes JSON
`{ study_material }` and, in this variant, also the date.  The date is
modelled by its serialised string. -/
def createStudyPlanWithDate (text : String) (date : String) (fr : FetchResult) :
    Request × Except Unit Json :=
  (⟨"/create-study-plan",
    some (Json.obj [("study_material", Json.str text), ("date", Json.str date)]), []⟩,
   responseJson fr)

/-- Modelled from the spec: `submitForm(answers)` is imported by the wizard
but absent from the sources; per the spec, `POST {base}/submit-form` takes
JSON `{ answers: list of strings }` and returns arbitrary JSON. -/
def submitForm (answers : List String) (fr : FetchResult) :
    Request × Except Unit Json :=
  (⟨"/submit-form",
    some (Json.obj [("answers", Json.arr (List.map Json.str answers))]), []⟩,
   responseJson fr)

/-! ## Data model (`models.ts`) -/

/-- `StudyMethod` union type from `models.ts`. -/
inductive StudyMethod where
  | reading : StudyMethod
  | practice : StudyMethod
  | flashcards : StudyMethod
  | review : StudyMethod

/-- The string literal a `StudyMethod` stands for. -/
def StudyMethod.toStr : StudyMethod → String
  | StudyMethod.reading => "reading"
  | StudyMethod.practice => "practice"
  | StudyMethod.flashcards => "flashcards"
  | StudyMethod.review => "review"

/-- `Topic` from `models.ts`. -/
structure Topic where
  name : String
  description : String

/-- `StudySession` from `models.ts`. -/
structure StudySession where
  date : String
  topic : Topic
  information : String
  duration_minutes : Int
  methods : List StudyMethod

/-- `StudyPlan` from `models.ts`. -/
structure StudyPlan where
  overview : String
  sessions : List StudySession
  total_duration_hours : Int

/-! ## Multi-step quiz wizard (`MulitStepForm.tsx`) -/

/-- A wizard question: prompt text and selectable option strings. -/
structure Question where
  text : String
  options : List String

/-- The fixed question list from `MulitStepForm.tsx`. -/
def questions : List Question :=
  [⟨"Frage 1: Welche IDE bevorzugst du?", ["VSCode", "IntelliJ", "Sublime Text"]⟩,
   ⟨"Frage 2: Frontend, Backend, Fullstack?", ["Frontend", "Backend", "Fullstack"]⟩,
   ⟨"Frage 3: Programmiersprache", ["JavaScript", "Python", "Java"]⟩,
   ⟨"Frage 4: Testing Framework?", ["Jest", "Mocha", "Cypress"]⟩,
   ⟨"Frage 5: CI?", ["Jenkins", "GitHub Actions", "GitLab CI"]⟩]

/-- The wizard's component state: `currentStep` and `answers`. -/
structure WizardState where
  currentStep : Nat
  answers : List String

/-- The wizard's initial state: step `0` and
`Array(questions.length).fill("")`. -/
def initWizard : WizardState :=
  ⟨0, List.replicate questions.length ""⟩

/-- `handleOptionSelect(option)`: copies the answers array and overwrites
the entry at `currentStep`. -/
def handleOptionSelect (s : WizardState) (option : String) : WizardState :=
  { s with answers := s.answers.set s.currentStep option }

/-- `handleNext()`: below the last question, advances `currentStep` by one;
otherwise calls `submitForm(answers)`.  The second component lists the
argument of each `submitForm` call made, in order. -/
def handleNext (s : WizardState) : WizardState × List (List String) :=
  if s.currentStep < questions.length - 1 then
    ({ s with currentStep := s.currentStep + 1 }, [])
  else
    (s, [s.answers])

/-- The states the wizard component can reach from its initial state by
option selections and confirmations. -/
inductive WizardReachable : WizardState → Prop where
  | init : WizardReachable initWizard
  | select (s : WizardState) (option : String) :
      WizardReachable s → WizardReachable (handleOptionSelect s option)
  | next (s : WizardState) :
      WizardReachable s → WizardReachable (handleNext s).1

/-! ## View controllers

`App.tsx` (date-aware), `part_001` (non-date study-plan variant) and
`part_002` (knowledge-graph variant).  A `File` is modelled by its name,
a `Date` by its timestamp. -/

/-- State of the date-aware `App` (`App.tsx`): `file`, `studyMaterial`,
`studyPlan : StudyPlan | string`, both loading flags and `selectedDate`. -/
structure AppState where
  file : Option String
  studyMaterial : String
  studyPlan : Sum String StudyPlan
  loading : Bool
  planLoading : Bool
  selectedDate : Option Int

/-- State of the non-date `App` variant (`part_001`). -/
structure NdAppState where
  file : Option String
  studyMaterial : String
  studyPlan : Sum String StudyPlan
  loading : Bool
  planLoading : Bool

/-- State of the knowledge-graph `App` variant (`part_002`). -/
structure KgAppState where
  file : Option String
  text : String
  graphText : String
  loading : Bool
  graphLoading : Bool

/-- A state-setter call made by an event handler, with the runtime value it
stores. -/
inductive AppEvent where
  | setLoading (b : Bool) : AppEvent
  | setPlanLoading (b : Bool) : AppEvent
  | setGraphLoading (b : Bool) : AppEvent
  | setStudyMaterial (v : Json) : AppEvent
  | setStudyPlan (v : Json) : AppEvent
  | setGraphText (v : Json) : AppEvent

/-- `handleFileChange(e)` of the date-aware `App`: when the change event
carries a file list with a first entry, stores that file and clears the
manual study-material text; otherwise does nothing.  `files` is
`e.target.files`, `none` standing for `null`. -/
def handleFileChange (s : AppState) (files : Option (List String)) : AppState :=
  match files with
  | some (f :: _) => { s with file := some f, studyMaterial := "" }
  | _ => s

/-- The setter calls of the `try`/`catch` of `handleUpload` after the
awaited `extractStudyMaterial` settles: on success, `res.text ?? "Kein Text
zurückgegeben."` (property access on `null` throws into the `catch`); on
rejection, the fallback string. -/
def uploadResultEvents : Except Unit Json → List AppEvent
  | Except.error _ => [AppEvent.setStudyMaterial (Json.str "Fehler beim Extrahieren.")]
  | Except.ok j =>
    match jsField j "text" with
    | Except.error _ => [AppEvent.setStudyMaterial (Json.str "Fehler beim Extrahieren.")]
    | Except.ok v =>
        [AppEvent.setStudyMaterial (jsCoalesce v (Json.str "Kein Text zurückgegeben."))]

/-- `handleUpload()` of the date-aware `App` as its ordered list of setter
calls, given the outcome of the `extractStudyMaterial` fetch.  Returns early
when no file is selected. -/
def handleUploadEvents (s : AppState) (fr : FetchResult) : List AppEvent :=
  match s.file with
  | none => []
  | some _ =>
    [AppEvent.setLoading true, AppEvent.setStudyMaterial (Json.str "")]
      ++ uploadResultEvents (responseJson fr)
      ++ [AppEvent.setLoading false]

/-- The setter calls of the `try`/`catch` of the date-aware
`handleCreatePlan` after the awaited `createStudyPlan` settles: on success,
`res ?? "Kein Study Plan zurückgegeben."`; on rejection, the fallback
string. -/
def planResultEvents : Except Unit Json → List AppEvent
  | Except.error _ =>
      [AppEvent.setStudyPlan (Json.str "Fehler beim Erstellen des Study Plans.")]
  | Except.ok j =>
      [AppEvent.setStudyPlan (jsCoalesce (some j) (Json.str "Kein Study Plan zurückgegeben."))]

/-- `handleCreatePlan()` of the date-aware `App` as its ordered list of
setter calls.  Returns early when the study material is empty or no date is
selected. -/
def handleCreatePlanEvents (s : AppState) (fr : FetchResult) : List AppEvent :=
  if s.studyMaterial = "" then []
  else match s.selectedDate with
  | none => []
  | some _ =>
    [AppEvent.setPlanLoading true, AppEvent.setStudyPlan (Json.str "")]
      ++ planResultEvents (responseJson fr)
      ++ [AppEvent.setPlanLoading false]

/-- The setter calls of the `try`/`catch` of the non-date variant's
`handleCreatePlan` (`part_001`): on success, `res ?? "Kein Graph-Text
zurückgegeben."`; on rejection, `"Fehler beim Erstellen des Knowledge
Graphs."`. -/
def ndPlanResultEvents : Except Unit Json → List AppEvent
  | Except.error _ =>
      [AppEvent.setStudyPlan (Json.str "Fehler beim Erstellen des Knowledge Graphs.")]
  | Except.ok j =>
      [AppEvent.setStudyPlan (jsCoalesce (some j) (Json.str "Kein Graph-Text zurückgegeben."))]

/-- `handleCreatePlan()` of the non-date variant (`part_001`) as its ordered
list of setter calls.  Returns early when the study material is empty. -/
def ndHandleCreatePlanEvents (t : NdAppState) (fr : FetchResult) : List AppEvent :=
  if t.studyMaterial = "" then []
  else
    [AppEvent.setPlanLoading true, AppEvent.setStudyPlan (Json.str "")]
      ++ ndPlanResultEvents (responseJson fr)
      ++ [AppEvent.setPlanLoading false]

/-- The setter calls of the `try`/`catch` of `handleCreateGraph`
(`part_002`): on success, `res.text ?? "Kein Graph-Text zurückgegeben."`;
on rejection, `"Fehler beim Erstellen des Knowledge Graphs."`. -/
def graphResultEvents : Except Unit Json → List AppEvent
  | Except.error _ =>
      [AppEvent.setGraphText (Json.str "Fehler beim Erstellen des Knowledge Graphs.")]
  | Except.ok j =>
    match jsField j "text" with
    | Except.error _ =>
        [AppEvent.setGraphText (Json.str "Fehler beim Erstellen des Knowledge Graphs.")]
    | Except.ok v =>
        [AppEvent.setGraphText (jsCoalesce v (Json.str "Kein Graph-Text zurückgegeben."))]

/-- `handleCreateGraph()` of the knowledge-graph variant (`part_002`) as its
ordered list of setter calls.  Returns early when the extracted text is
empty. -/
def kgCreateGraphEvents (k : KgAppState) (fr : FetchResult) : List AppEvent :=
  if k.text = "" then []
  else
    [AppEvent.setGraphLoading true, AppEvent.setGraphText (Json.str "")]
      ++ graphResultEvents (responseJson fr)
      ++ [AppEvent.setGraphLoading false]

/-! ## Button `disabled` attributes -/

/-- `disabled={!file || loading}` of the upload button, date-aware `App`. -/
def uploadButtonDisabled (s : AppState) : Bool :=
  !s.file.isSome || s.loading

/-- `disabled={!file || loading}` of the upload button, non-date variant. -/
def ndUploadButtonDisabled (t : NdAppState) : Bool :=
  !t.file.isSome || t.loading

/-- `disabled={!file || loading}` of the upload button, knowledge-graph
variant. -/
def kgUploadButtonDisabled (k : KgAppState) : Bool :=
  !k.file.isSome || k.loading

/-- `disabled={!studyMaterial || planLoading || !selectedDate}` of the
plan-creation button, date-aware `App` (string truthiness: non-empty). -/
def planButtonDisabled (s : AppState) : Bool :=
  !(s.studyMaterial != "") || s.planLoading || !s.selectedDate.isSome

/-- `disabled={!studyMaterial || planLoading}` of the plan-creation button,
non-date variant. -/
def ndPlanButtonDisabled (t : NdAppState) : Bool :=
  !(t.studyMaterial != "") || t.planLoading

/-! ## Study-plan rendering -/

/-- One rendered session block of the date-aware `App`: the heading
`{topic.name} {date} ({duration_minutes} minutes)`, the information
paragraph and the methods line. -/
structure SessionBlock where
  heading : String
  information : String
  methodsLine : String

/-- The session block the date-aware `App` renders for one `StudySession`. -/
def renderSession (sess : StudySession) : SessionBlock :=
  ⟨sess.topic.name ++ " " ++ sess.date ++ " (" ++ toString sess.duration_minutes
      ++ " minutes)",
   sess.information,
   "Methods: " ++ String.intercalate ", " (List.map StudyMethod.toStr sess.methods)⟩

/-- The session block the non-date variant renders for one `StudySession`:
heading `{topic.name} ({duration_minutes} minutes)`. -/
def ndRenderSession (sess : StudySession) : SessionBlock :=
  ⟨sess.topic.name ++ " (" ++ toString sess.duration_minutes ++ " minutes)",
   sess.information,
   "Methods: " ++ String.intercalate ", " (List.map StudyMethod.toStr sess.methods)⟩

/-- The session blocks of the date-aware `App`'s study-plan output:
`studyPlan.sessions.map(...)` when `studyPlan` is not a string, no session
blocks (only the placeholder) otherwise. -/
def renderPlanOutput (s : AppState) : List SessionBlock :=
  match s.studyPlan with
  | Sum.inl _ => []
  | Sum.inr p => List.map renderSession p.sessions

/-- The session blocks of the non-date variant's study-plan output. -/
def ndRenderPlanOutput (t : NdAppState) : List SessionBlock :=
  match t.studyPlan with
  | Sum.inl _ => []
  | Sum.inr p => List.map ndRenderSession p.sessions

/-- Counts `setStudyMaterial` calls storing exactly the string `v`. -/
def isSetStudyMaterialStr (v : String) : AppEvent → Bool
  | AppEvent.setStudyMaterial (Json.str w) => w == v
  | _ => false

/-- Counts `setStudyPlan` calls storing exactly the string `v`. -/
def isSetStudyPlanStr (v : String) : AppEvent → Bool
  | AppEvent.setStudyPlan (Json.str w) => w == v
  | _ => false

/-- Counts `setGraphText` calls storing exactly the string `v`. -/
def isSetGraphTextStr (v : String) : AppEvent → Bool
  | AppEvent.setGraphText (Json.str w) => w == v
  | _ => false

/-! ## Theorems -/

/-- C1: for every study-material text and every selected date,
`createStudyPlan` posts to `/create-study-plan` a JSON body containing the
study material — in the date-aware variant also the date — and returns the
response body parsed as JSON (which the caller types as `StudyPlan`, with no
validation). -/
theorem createStudyPlan_posts_material_returns_plan
    (text date : String) (st : Nat) (j : Json) :
    (createStudyPlan text (FetchResult.resp st (some j))).1.path = "/create-study-plan"
    ∧ (createStudyPlan text (FetchResult.resp st (some j))).1.jsonBody
        = some (Json.obj [("study_material", Json.str text)])
    ∧ (createStudyPlan text (FetchResult.resp st (some j))).2 = Except.ok j
    ∧ (createStudyPlanWithDate text date (FetchResult.resp st (some j))).1.path
        = "/create-study-plan"
    ∧ (createStudyPlanWithDate text date (FetchResult.resp st (some j))).1.jsonBody
        = some (Json.obj [("study_material", Json.str text), ("date", Json.str date)])
    ∧ (createStudyPlanWithDate text date (FetchResult.resp st (some j))).2 = Except.ok j :=
  ⟨rfl, rfl, rfl, rfl, rfl, rfl⟩

/-- C4: no API-client operation checks the status code — each returns
`res.json()`, i.e. the parsed body unchanged whatever the status — and the
returned computation rejects exactly on network failure or an unparsable
body. -/
theorem api_client_no_status_check
    (fd : List (String × String)) (t u v w : String) (ans : List String)
    (fr : FetchResult) :
    ((extractStudyMaterial fd fr).2 = responseJson fr)
    ∧ ((createKnowledgeGraph t fr).2 = responseJson fr)
    ∧ ((createStudyPlan u fr).2 = responseJson fr)
    ∧ ((createStudyPlanWithDate v w fr).2 = responseJson fr)
    ∧ ((submitForm ans fr).2 = responseJson fr)
    ∧ (∀ st j, responseJson (FetchResult.resp st (some j)) = Except.ok j)
    ∧ (responseJson fr = Except.error () ↔
        fr = FetchResult.netFail ∨ ∃ st, fr = FetchResult.resp st none) := by
  refine ⟨rfl, rfl, rfl, rfl, rfl, fun st j => rfl, ?_⟩
  cases fr with
  | netFail => simp [responseJson]
  | resp st body =>
    cases body with
    | none => simp [responseJson]
    | some j => simp [responseJson]

/-- C6: the plan-creation button is disabled exactly when the study-material
text is empty, the plan-loading flag is set, or — in the date-aware
variant — no date is selected. -/
theorem plan_button_disabled_iff (s : AppState) (t : NdAppState) :
    (planButtonDisabled s = true ↔
      s.studyMaterial = "" ∨ s.planLoading = true ∨ s.selectedDate = none)
    ∧ (ndPlanButtonDisabled t = true ↔
      t.studyMaterial = "" ∨ t.planLoading = true) := by
  constructor
  · cases hd : s.selectedDate <;> simp [planButtonDisabled, hd]
  · simp [ndPlanButtonDisabled]

/-- C7: in each of the three view-controller variants, the upload button is
disabled exactly when no file is selected or the loading flag is set. -/
theorem upload_button_disabled_iff (s : AppState) (t : NdAppState) (k : KgAppState) :
    (uploadButtonDisabled s = true ↔ s.file = none ∨ s.loading = true)
    ∧ (ndUploadButtonDisabled t = true ↔ t.file = none ∨ t.loading = true)
    ∧ (kgUploadButtonDisabled k = true ↔ k.file = none ∨ k.loading = true) := by
  refine ⟨?_, ?_, ?_⟩
  · cases hf : s.file <;> simp [uploadButtonDisabled, hf]
  · cases hf : t.file <;> simp [ndUploadButtonDisabled, hf]
  · cases hf : k.file <;> simp [kgUploadButtonDisabled, hf]

/-- C10: in the date-aware variant, a change event carrying a file stores
that file and clears the manual study-material text, leaving all other
state unchanged; a change event carrying no file leaves the whole state
unchanged. -/
theorem handleFileChange_sets_file_clears_text
    (s : AppState) (f : String) (rest : List String) :
    handleFileChange s (some (f :: rest))
        = { s with file := some f, studyMaterial := "" }
    ∧ handleFileChange s none = s
    ∧ handleFileChange s (some []) = s :=
  ⟨rfl, rfl, rfl⟩

/-- C2: confirming on the last question with a non-empty current answer
calls `submitForm` exactly once, with the full answers array in question
order, and leaves the step index (indeed the whole state) unchanged;
confirming below the last question advances the index by exactly one and
makes no submission. -/
theorem handleNext_submits_or_advances (s : WizardState) :
    (s.currentStep = questions.length - 1 →
        s.answers.get? s.currentStep ≠ some "" →
        (handleNext s).2 = [s.answers] ∧ (handleNext s).1 = s)
    ∧ (s.currentStep < questions.length - 1 →
        (handleNext s).1.currentStep = s.currentStep + 1
        ∧ (handleNext s).1.answers = s.answers
        ∧ (handleNext s).2 = []) := by
  constructor
  · intro h _
    have hlt : ¬ s.currentStep < questions.length - 1 := by
      rw [h]; exact lt_irrefl _
    simp [handleNext, hlt]
  · intro h
    simp [handleNext, h]

/-- Witness for C2 at a concrete last-question state. -/
theorem handleNext_submits_or_advances_witness :
    (handleNext ⟨4, ["VSCode", "Frontend", "Python", "Jest", "Jenkins"]⟩).2
        = [["VSCode", "Frontend", "Python", "Jest", "Jenkins"]]
    ∧ (handleNext ⟨4, ["VSCode", "Frontend", "Python", "Jest", "Jenkins"]⟩).1
        = ⟨4, ["VSCode", "Frontend", "Python", "Jest", "Jenkins"]⟩ :=
  (handleNext_submits_or_advances
      ⟨4, ["VSCode", "Frontend", "Python", "Jest", "Jenkins"]⟩).1
    (by decide) (by decide)

/-- C5: selecting an option stores it at the current step index of the
answers array, leaves every other index unchanged, and changes no other
state (the step index stays put, the array keeps its length). -/
theorem handleOptionSelect_updates_only_current (s : WizardState) (option : String)
    (h : s.currentStep < s.answers.length) :
    (handleOptionSelect s option).answers.get? s.currentStep = some option
    ∧ (∀ j, j ≠ s.currentStep →
        (handleOptionSelect s option).answers.get? j = s.answers.get? j)
    ∧ (handleOptionSelect s option).currentStep = s.currentStep
    ∧ (handleOptionSelect s option).answers.length = s.answers.length := by
  refine ⟨?_, ?_, rfl, ?_⟩
  · exact List.get?_set_eq_of_lt option h
  · intro j hj
    exact List.get?_set_ne option s.answers (fun he => hj he.symm)
  · exact List.length_set s.answers s.currentStep option

/-- Witness for C5 at a concrete wizard state. -/
theorem handleOptionSelect_updates_only_current_witness :
    (handleOptionSelect ⟨1, ["VSCode", "", "", "", ""]⟩ "Backend").answers.get? 1
        = some "Backend"
    ∧ (handleOptionSelect ⟨1, ["VSCode", "", "", "", ""]⟩ "Backend").answers.get? 0
        = (["VSCode", "", "", "", ""] : List String).get? 0
    ∧ (handleOptionSelect ⟨1, ["VSCode", "", "", "", ""]⟩ "Backend").currentStep = 1
    ∧ (handleOptionSelect ⟨1, ["VSCode", "", "", "", ""]⟩ "Backend").answers.length
        = (["VSCode", "", "", "", ""] : List String).length :=
  have T := handleOptionSelect_updates_only_current
    ⟨1, ["VSCode", "", "", "", ""]⟩ "Backend" (by decide)
  ⟨T.1, T.2.1 0 (by decide), T.2.2.1, T.2.2.2⟩

/-- C9: in every reachable wizard state the answers array has length equal
to the number of questions, which is 5: the initial state has that length
and option selection and confirmation both preserve it. -/
theorem wizard_answers_length_invariant (s : WizardState) (h : WizardReachable s) :
    s.answers.length = questions.length ∧ questions.length = 5 := by
  refine ⟨?_, rfl⟩
  induction h with
  | init => decide
  | select s option _ ih =>
    simpa [handleOptionSelect, List.length_set] using ih
  | next s _ ih =>
    by_cases hc : s.currentStep < questions.length - 1 <;>
      simpa [handleNext, hc] using ih

/-- Witness for C9 at the initial wizard state. -/
theorem wizard_answers_length_invariant_witness :
    initWizard.answers.length = questions.length ∧ questions.length = 5 :=
  wizard_answers_length_invariant initWizard WizardReachable.init

/-- C8: when the view state holds a `StudyPlan` value with `k` sessions,
the rendered study-plan output contains exactly `k` session blocks, in the
order of the plan's sessions list — in the date-aware and in the non-date
variant alike. -/
theorem plan_output_session_blocks (s : AppState) (t : NdAppState) (p q : StudyPlan)
    (hp : s.studyPlan = Sum.inr p) (hq : t.studyPlan = Sum.inr q) :
    (renderPlanOutput s).length = p.sessions.length
    ∧ (∀ i, (renderPlanOutput s).get? i = (p.sessions.get? i).map renderSession)
    ∧ (ndRenderPlanOutput t).length = q.sessions.length
    ∧ (∀ i, (ndRenderPlanOutput t).get? i = (q.sessions.get? i).map ndRenderSession) := by
  refine ⟨?_, ?_, ?_, ?_⟩ <;>
    simp [renderPlanOutput, ndRenderPlanOutput, hp, hq, List.getElem?_map]

/-- Witness for C8 at a concrete two-session plan. -/
theorem plan_output_session_blocks_witness :
    (renderPlanOutput
        ⟨none, "", Sum.inr ⟨"overview",
          [⟨"2025-01-01", ⟨"Algebra", "basics"⟩, "read ch. 1", 60,
              [StudyMethod.reading]⟩,
           ⟨"2025-01-02", ⟨"Algebra", "basics"⟩, "exercises", 30,
              [StudyMethod.practice, StudyMethod.review]⟩], 2⟩,
          false, false, none⟩).length = 2
    ∧ (renderPlanOutput
        ⟨none, "", Sum.inr ⟨"overview",
          [⟨"2025-01-01", ⟨"Algebra", "basics"⟩, "read ch. 1", 60,
              [StudyMethod.reading]⟩,
           ⟨"2025-01-02", ⟨"Algebra", "basics"⟩, "exercises", 30,
              [StudyMethod.practice, StudyMethod.review]⟩], 2⟩,
          false, false, none⟩).get? 1
        = some (renderSession
            ⟨"2025-01-02", ⟨"Algebra", "basics"⟩, "exercises", 30,
              [StudyMethod.practice, StudyMethod.review]⟩) :=
  have T := plan_output_session_blocks
    ⟨none, "", Sum.inr ⟨"overview",
      [⟨"2025-01-01", ⟨"Algebra", "basics"⟩, "read ch. 1", 60,
          [StudyMethod.reading]⟩,
       ⟨"2025-01-02", ⟨"Algebra", "basics"⟩, "exercises", 30,
          [StudyMethod.practice, StudyMethod.review]⟩], 2⟩,
      false, false, none⟩
    ⟨none, "", Sum.inr ⟨"o", [], 0⟩, false, false⟩
    ⟨"overview",
      [⟨"2025-01-01", ⟨"Algebra", "basics"⟩, "read ch. 1", 60,
          [StudyMethod.reading]⟩,
       ⟨"2025-01-02", ⟨"Algebra", "basics"⟩, "exercises", 30,
          [StudyMethod.practice, StudyMethod.review]⟩], 2⟩
    ⟨"o", [], 0⟩ rfl rfl
  ⟨T.1, T.2.1 1⟩

/-- C3: whenever an API call made by a handler rejects — extraction, plan
creation (date-aware and non-date variants) or knowledge-graph creation —
the handler performs exactly one setter call storing that handler's fixed
fallback string into the corresponding text state; and the handler's whole
setter trace is the same for every rejecting outcome, so network failure
and a body that fails to parse (whatever the status code) are
indistinguishable. -/
theorem rejected_call_sets_fallback_once
    (s : AppState) (t : NdAppState) (k : KgAppState) (fr fr2 : FetchResult)
    (hf : s.file ≠ none) (hm : s.studyMaterial ≠ "") (hd : s.selectedDate ≠ none)
    (hm2 : t.studyMaterial ≠ "") (ht : k.text ≠ "")
    (hr : responseJson fr = Except.error ())
    (hr2 : responseJson fr2 = Except.error ()) :
    List.countP (isSetStudyMaterialStr "Fehler beim Extrahieren.")
        (handleUploadEvents s fr) = 1
    ∧ List.countP (isSetStudyPlanStr "Fehler beim Erstellen des Study Plans.")
        (handleCreatePlanEvents s fr) = 1
    ∧ List.countP (isSetStudyPlanStr "Fehler beim Erstellen des Knowledge Graphs.")
        (ndHandleCreatePlanEvents t fr) = 1
    ∧ List.countP (isSetGraphTextStr "Fehler beim Erstellen des Knowledge Graphs.")
        (kgCreateGraphEvents k fr) = 1
    ∧ handleUploadEvents s fr = handleUploadEvents s fr2
    ∧ handleCreatePlanEvents s fr = handleCreatePlanEvents s fr2
    ∧ ndHandleCreatePlanEvents t fr = ndHandleCreatePlanEvents t fr2
    ∧ kgCreateGraphEvents k fr = kgCreateGraphEvents k fr2 := by
  obtain ⟨f, hf'⟩ := Option.ne_none_iff_exists'.mp hf
  obtain ⟨d, hd'⟩ := Option.ne_none_iff_exists'.mp hd
  refine ⟨?_, ?_, ?_, ?_, ?_, ?_, ?_, ?_⟩
  · simp only [handleUploadEvents, hf', hr, uploadResultEvents]
    decide
  · simp only [handleCreatePlanEvents, if_neg hm, hd', hr, planResultEvents]
    decide
  · simp only [ndHandleCreatePlanEvents, if_neg hm2, hr, ndPlanResultEvents]
    decide
  · simp only [kgCreateGraphEvents, if_neg ht, hr, graphResultEvents]
    decide
  · simp only [handleUploadEvents, hf', hr, hr2]
  · simp only [handleCreatePlanEvents, if_neg hm, hd', hr, hr2]
  · simp only [ndHandleCreatePlanEvents, if_neg hm2, hr, hr2]
  · simp only [kgCreateGraphEvents, if_neg ht, hr, hr2]

/-- Witness for C3: a network failure and a 500 response with an
unparsable body, at concrete view states. -/
theorem rejected_call_sets_fallback_once_witness :
    List.countP (isSetStudyMaterialStr "Fehler beim Extrahieren.")
        (handleUploadEvents ⟨some "a.pdf", "mat", Sum.inl "", false, false, some 0⟩
          FetchResult.netFail) = 1
    ∧ List.countP (isSetStudyPlanStr "Fehler beim Erstellen des Study Plans.")
        (handleCreatePlanEvents ⟨some "a.pdf", "mat", Sum.inl "", false, false, some 0⟩
          FetchResult.netFail) = 1
    ∧ List.countP (isSetStudyPlanStr "Fehler beim Erstellen des Knowledge Graphs.")
        (ndHandleCreatePlanEvents ⟨some "a.pdf", "mat", Sum.inl "", false, false⟩
          FetchResult.netFail) = 1
    ∧ List.countP (isSetGraphTextStr "Fehler beim Erstellen des Knowledge Graphs.")
        (kgCreateGraphEvents ⟨some "a.pdf", "txt", "", false, false⟩
          FetchResult.netFail) = 1
    ∧ handleUploadEvents ⟨some "a.pdf", "mat", Sum.inl "", false, false, some 0⟩
          FetchResult.netFail
        = handleUploadEvents ⟨some "a.pdf", "mat", Sum.inl "", false, false, some 0⟩
          (FetchResult.resp 500 none)
    ∧ handleCreatePlanEvents ⟨some "a.pdf", "mat", Sum.inl "", false, false, some 0⟩
          FetchResult.netFail
        = handleCreatePlanEvents ⟨some "a.pdf", "mat", Sum.inl "", false, false, some 0⟩
          (FetchResult.resp 500 none)
    ∧ ndHandleCreatePlanEvents ⟨some "a.pdf", "mat", Sum.inl "", false, false⟩
          FetchResult.netFail
        = ndHandleCreatePlanEvents ⟨some "a.pdf", "mat", Sum.inl "", false, false⟩
          (FetchResult.resp 500 none)
    ∧ kgCreateGraphEvents ⟨some "a.pdf", "txt", "", false, false⟩
          FetchResult.netFail
        = kgCreateGraphEvents ⟨some "a.pdf", "txt", "", false, false⟩
          (FetchResult.resp 500 none) :=
  rejected_call_sets_fallback_once
    ⟨some "a.pdf", "mat", Sum.inl "", false, false, some 0⟩
    ⟨some "a.pdf", "mat", Sum.inl "", false, false⟩
    ⟨some "a.pdf", "txt", "", false, false⟩
    FetchResult.netFail (FetchResult.resp 500 none)
    (by decide) (by decide) (by decide) (by decide) (by decide) rfl rfl

end StudyPlanner
